import Mathlib

/-!
Shallow embedding of `sdk_utils/baidu_cloud.py` (class `BaiduCloudClient`).

Every client method is modelled as a computation in a small trace monad `M`:
an environment `Env` supplies the vendor's response to the i-th network
request, the value of the i-th wall-clock read, the local filesystem
contents, and the MD5 hex-digest function (Python's
`hashlib.md5(...).hexdigest()`, treated as an opaque function of the byte
sequence absorbed, per the incremental-hash API: `update` appends bytes,
`hexdigest` hashes everything absorbed so far).  A computation threads the
mutable `ClientState` (the `self.*` attributes) and an effect log `Eff`
recording, in order, every network request and filesystem operation issued;
raised Python exceptions are modelled by `Except.error`.

JSON response bodies are modelled by the association list `JObj`; string
typed response fields (`dlink`) are extracted as strings.  `json.dumps` of
the list/object shapes the client serializes is modelled by the literal
serializers `json_dumps_strs` / `json_dumps_objs`.
-/

namespace BaiduCloud

/-- A JSON value as far as this client inspects one. -/
inductive JVal where
  | jnum (n : Int)
  | jstr (s : String)
  | jbool (b : Bool)
  | jnull
deriving DecidableEq, Repr

/-- A JSON object / Python dict, as an association list. -/
abbrev JObj := List (String × JVal)

def JObj.get? (o : JObj) (k : String) : Option JVal :=
  (o.find? (fun p => p.1 == k)).map (fun p => p.2)

/-- Python's `k in d`. -/
def JObj.hasKey (o : JObj) (k : String) : Bool :=
  (JObj.get? o k).isSome

/-- Python's `d.get(k, default)`. -/
def JObj.getD (o : JObj) (k : String) (d : JVal) : JVal :=
  (JObj.get? o k).getD d

/-- Python truthiness of a JSON value (`if not x`). -/
def JVal.truthy : JVal → Bool
  | .jnum n => n != 0
  | .jstr s => s ≠ ""
  | .jbool b => b
  | .jnull => false

/-- Python `x != 0` for a JSON value (`False == 0`, `True == 1`). -/
def JVal.neZeroPy : JVal → Bool
  | .jnum n => n != 0
  | .jbool b => b
  | .jstr _ => true
  | .jnull => true

/-- Python `int(...)`-usable reading of a JSON number (`expires_in`). -/
def JVal.asInt : JVal → Int
  | .jnum n => n
  | _ => 0

/-- Truthiness of an attribute that may be Python `None` (`if not self.x`). -/
def truthyOpt : Option JVal → Bool
  | none => false
  | some v => v.truthy

/-- `'errno' in result and result['errno'] != 0`. -/
def errno_nonzero (o : JObj) : Bool :=
  match JObj.get? o "errno" with
  | some v => v.neZeroPy
  | none => false

/-- A string-valued field read `d.get(k, "")`, as the client uses `dlink`. -/
def jGetStr (o : JObj) (k : String) : String :=
  match JObj.get? o k with
  | some (.jstr s) => s
  | _ => ""

/-- File contents are byte lists. -/
abbrev Byte := Nat

/-- `json.dumps` of a list of strings (no escaping occurs in the client's
inputs), matching Python's default `", "` separator. -/
def json_dumps_strs (xs : List String) : String :=
  "[" ++ String.intercalate ", " (xs.map (fun s => "\"" ++ s ++ "\"")) ++ "]"

/-- `json.dumps` of one string-valued object. -/
def json_dumps_obj (fields : List (String × String)) : String :=
  "\x7b" ++
    String.intercalate ", "
      (fields.map (fun kv => "\"" ++ kv.1 ++ "\": \"" ++ kv.2 ++ "\"")) ++
    "\x7d"

/-- `json.dumps` of a list of string-valued objects. -/
def json_dumps_objs (l : List (List (String × String))) : String :=
  "[" ++ String.intercalate ", " (l.map json_dumps_obj) ++ "]"

/-- One HTTP request issued through the session. -/
inductive NetCall where
  | get (url : String) (params : JObj)
  | post (url : String) (params : JObj) (data : JObj)
  | postFile (url : String) (params : JObj) (fileData : List Byte)
deriving DecidableEq, Repr

/-- The transport's answer to a request: a response (status code, parsed
JSON body, raw bytes) or a raised transport exception. -/
inductive NetResult where
  | resp (status : Int) (body : JObj) (raw : List Byte)
  | exn (msg : String)
deriving DecidableEq, Repr

def NetResult.status : NetResult → Int
  | .resp s _ _ => s
  | .exn _ => 0

/-- `response.json()` (only reached when no transport exception was raised). -/
def NetResult.jsonBody : NetResult → JObj
  | .resp _ b _ => b
  | .exn _ => []

/-- `response.iter_content` source bytes. -/
def NetResult.raw : NetResult → List Byte
  | .resp _ _ r => r
  | .exn _ => []

/-- A local filesystem operation issued by the client.  `remove` exists in
the vocabulary (``os.remove``) so that "no cleanup happens" is expressible;
the client never issues it. -/
inductive FsOp where
  | mkdirsParent (path : String)
  | write (path : String) (data : List Byte)
  | remove (path : String)
deriving DecidableEq, Repr

/-- Raised Python exceptions, by kind. -/
inductive PyErr where
  | valueError (msg : String)
  | fileNotFoundError (msg : String)
  | transportError (msg : String)
deriving DecidableEq, Repr

/-- The `self.*` attributes of `BaiduCloudClient`. -/
structure ClientState where
  app_key : String
  secret_key : String
  access_token : Option JVal
  refresh_token : Option JVal
  auto_refresh : Bool
  token_expire_time : Int
deriving DecidableEq, Repr

/-- The world outside the client: transport responses (indexed by request
number), wall clock (indexed by read number), filesystem, MD5 digests. -/
structure Env where
  net : Nat → NetResult
  clock : Nat → Int
  fs : String → Option (List Byte)
  digest : List Byte → String

/-- Log of the observable effects an operation has issued so far. -/
structure Eff where
  trace : List NetCall
  nets : Nat
  clocks : Nat
  fsOps : List FsOp
deriving DecidableEq, Repr

def initEff : Eff := ⟨[], 0, 0, []⟩

/-- The client monad: environment, mutable client state, effect log,
Python exceptions as `Except.error`.  The effect log is preserved on an
exception (what was sent stays sent). -/
def M (α : Type) : Type :=
  Env → ClientState → Eff → Except PyErr α × ClientState × Eff

def M.pure (a : α) : M α := fun _ st eff => (.ok a, st, eff)

def M.bind (x : M α) (f : α → M β) : M β := fun env st eff =>
  match x env st eff with
  | (.ok a, st1, eff1) => f a env st1 eff1
  | (.error e, st1, eff1) => (.error e, st1, eff1)

instance : Monad M where
  pure := M.pure
  bind := M.bind

/-- `raise`. -/
def M.throw (e : PyErr) : M α := fun _ st eff => (.error e, st, eff)

/-- `try: x except Exception: h`. -/
def M.tryCatch (x : M α) (h : PyErr → M α) : M α := fun env st eff =>
  match x env st eff with
  | (.error e, st1, eff1) => h e env st1 eff1
  | r => r

/-- Read `self`. -/
def getState : M ClientState := fun _ st eff => (.ok st, st, eff)

/-- Overwrite `self`'s attributes. -/
def setState (st : ClientState) : M Unit := fun _ _ eff => (.ok (), st, eff)

/-- Issue one HTTP request; a transport-level failure raises. -/
def netCall (c : NetCall) : M NetResult := fun env st eff =>
  let eff1 : Eff := { eff with trace := eff.trace ++ [c], nets := eff.nets + 1 }
  match env.net eff.nets with
  | .exn m => (.error (.transportError m), st, eff1)
  | r => (.ok r, st, eff1)

/-- `int(time.time())`. -/
def clockRead : M Int := fun env st eff =>
  (.ok (env.clock eff.clocks), st, { eff with clocks := eff.clocks + 1 })

/-- `os.path.isfile`. -/
def fsIsFile (p : String) : M Bool := fun env st eff =>
  (.ok (env.fs p).isSome, st, eff)

/-- `os.path.getsize`. -/
def fsGetSize (p : String) : M Nat := fun env st eff =>
  (.ok ((env.fs p).getD []).length, st, eff)

/-- `open(p, 'rb')` + reading: the file's byte contents; a missing file
raises `FileNotFoundError`. -/
def fsReadAll (p : String) : M (List Byte) := fun env st eff =>
  match env.fs p with
  | some c => (.ok c, st, eff)
  | none => (.error (.fileNotFoundError p), st, eff)

/-- `os.makedirs(os.path.dirname(os.path.abspath(p)), exist_ok=True)`. -/
def fsMkdirsParent (p : String) : M Unit := fun _ st eff =>
  (.ok (), st, { eff with fsOps := eff.fsOps ++ [.mkdirsParent p] })

/-- `f.write(chunk)`. -/
def fsWrite (p : String) (data : List Byte) : M Unit := fun _ st eff =>
  (.ok (), st, { eff with fsOps := eff.fsOps ++ [.write p data] })

/-- `hashlib.md5(absorbed).hexdigest()`. -/
def md5Hex (absorbed : List Byte) : M String := fun env st eff =>
  (.ok (env.digest absorbed), st, eff)

/-- Successive `f.read(n)` results until the read comes back empty: the
source split into chunks of `n` bytes, the last one possibly shorter. -/
def readChunks (n : Nat) (l : List Byte) : List (List Byte) :=
  if h : n = 0 ∨ l = [] then []
  else l.take n :: readChunks n (l.drop n)
termination_by l.length
decreasing_by
  have hn : n ≠ 0 := fun hh => h (Or.inl hh)
  have hl : l ≠ [] := fun hh => h (Or.inr hh)
  have hp : 0 < l.length := List.length_pos.mpr hl
  simp only [List.length_drop]
  omega

/-- `refresh_access_token` (baidu_cloud.py:114-141). -/
def refresh_access_token : M JObj := do
  let st ← getState
  if ¬ truthyOpt st.refresh_token then
    M.throw (.valueError "未设置refresh_token，无法刷新token")
  else do
    let params : JObj :=
      [("grant_type", .jstr "refresh_token"),
       ("refresh_token", st.refresh_token.getD .jnull),
       ("client_id", .jstr st.app_key),
       ("client_secret", .jstr st.secret_key)]
    let r ← netCall (.get "https://openapi.baidu.com/oauth/2.0/token" params)
    let result := r.jsonBody
    if JObj.hasKey result "access_token" then do
      let st1 ← getState
      let st2 := { st1 with access_token := some (JObj.getD result "access_token" .jnull) }
      let st3 :=
        if JObj.hasKey result "refresh_token" then
          { st2 with refresh_token := some (JObj.getD result "refresh_token" .jnull) }
        else st2
      if JObj.hasKey result "expires_in" then do
        let now ← clockRead
        setState { st3 with token_expire_time := now + (JObj.getD result "expires_in" .jnull).asInt }
        pure result
      else do
        setState st3
        pure result
    else
      pure result

/-- `_check_token` (baidu_cloud.py:55-63). -/
def _check_token : M Unit := do
  let st ← getState
  if ¬ truthyOpt st.access_token then
    M.throw (.valueError "未设置access_token，请先获取授权")
  else do
    let current_time ← clockRead
    if st.token_expire_time > 0 ∧ current_time ≥ st.token_expire_time - 60 ∧ st.auto_refresh = true then do
      let _ ← refresh_access_token
      pure ()
    else
      pure ()

/-- `get_auth_url` (baidu_cloud.py:65-82): pure string building. -/
def get_auth_url (st : ClientState) (redirect_uri : String) (scope : String) : String :=
  let params : List (String × String) :=
    [("client_id", st.app_key),
     ("response_type", "code"),
     ("redirect_uri", redirect_uri),
     ("scope", scope)]
  let query_string := String.intercalate "&" (params.map (fun kv => kv.1 ++ "=" ++ kv.2))
  "https://openapi.baidu.com/oauth/2.0/authorize?" ++ query_string

/-- The `scope` default argument of `get_auth_url`. -/
def default_scope : String := "basic,netdisk"

/-- The `access_token` query parameter value `self.access_token`. -/
def tokenParam (st : ClientState) : JVal := st.access_token.getD .jnull

/-- `get_user_info` (baidu_cloud.py:143-153). -/
def get_user_info : M JObj := do
  _check_token
  let st ← getState
  let params : JObj := [("access_token", tokenParam st)]
  let r ← netCall (.get "https://pan.baidu.com/rest/2.0/xpan/nas?method=uinfo" params)
  pure r.jsonBody

/-- `get_quota` (baidu_cloud.py:155-165). -/
def get_quota : M JObj := do
  _check_token
  let st ← getState
  let params : JObj := [("access_token", tokenParam st)]
  let r ← netCall (.get "https://pan.baidu.com/api/quota" params)
  pure r.jsonBody

/-- `list_files` (baidu_cloud.py:167-192). -/
def list_files (dir_path : String) (order : String) (desc : Bool) (start limit : Int) : M JObj := do
  _check_token
  let st ← getState
  let params : JObj :=
    [("access_token", tokenParam st),
     ("dir", .jstr dir_path),
     ("order", .jstr order),
     ("desc", .jnum (if desc then 1 else 0)),
     ("start", .jnum start),
     ("limit", .jnum limit)]
  let r ← netCall (.get "https://pan.baidu.com/rest/2.0/xpan/file?method=list" params)
  pure r.jsonBody

/-- `search_files` (baidu_cloud.py:194-214). -/
def search_files (keyword dir_path : String) (recursive : Bool) : M JObj := do
  _check_token
  let st ← getState
  let params : JObj :=
    [("access_token", tokenParam st),
     ("key", .jstr keyword),
     ("dir", .jstr dir_path),
     ("recursion", .jnum (if recursive then 1 else 0))]
  let r ← netCall (.get "https://pan.baidu.com/rest/2.0/xpan/file?method=search" params)
  pure r.jsonBody

/-- `get_file_info` (baidu_cloud.py:216-232). -/
def get_file_info (file_path : String) : M JObj := do
  _check_token
  let st ← getState
  let params : JObj := [("access_token", tokenParam st), ("path", .jstr file_path)]
  let r ← netCall (.get "https://pan.baidu.com/rest/2.0/xpan/multimedia?method=filemetas" params)
  pure r.jsonBody

/-- `create_directory` (baidu_cloud.py:234-249). -/
def create_directory (dir_path : String) : M JObj := do
  _check_token
  let st ← getState
  let params : JObj := [("access_token", tokenParam st)]
  let data : JObj := [("path", .jstr dir_path)]
  let r ← netCall (.post "https://pan.baidu.com/rest/2.0/xpan/file?method=create" params data)
  pure r.jsonBody

/-- `delete_files` (baidu_cloud.py:251-266). -/
def delete_files (file_paths : List String) : M JObj := do
  _check_token
  let st ← getState
  let params : JObj := [("access_token", tokenParam st)]
  let data : JObj := [("filelist", .jstr (json_dumps_strs file_paths))]
  let r ← netCall (.post "https://pan.baidu.com/rest/2.0/xpan/file?method=filemanager&opera=delete" params data)
  pure r.jsonBody

/-- `rename_file` (baidu_cloud.py:268-286). -/
def rename_file (file_path new_name : String) : M JObj := do
  _check_token
  let st ← getState
  let params : JObj := [("access_token", tokenParam st)]
  let data : JObj :=
    [("filelist", .jstr (json_dumps_objs [[("path", file_path), ("newname", new_name)]]))]
  let r ← netCall (.post "https://pan.baidu.com/rest/2.0/xpan/file?method=filemanager&opera=rename" params data)
  pure r.jsonBody

/-- `move_files` (baidu_cloud.py:288-303); `file_list` entries are the
`{"path": ..., "dest": ...}` dicts as key/value lists. -/
def move_files (file_list : List (List (String × String))) : M JObj := do
  _check_token
  let st ← getState
  let params : JObj := [("access_token", tokenParam st)]
  let data : JObj := [("filelist", .jstr (json_dumps_objs file_list))]
  let r ← netCall (.post "https://pan.baidu.com/rest/2.0/xpan/file?method=filemanager&opera=move" params data)
  pure r.jsonBody

/-- `copy_files` (baidu_cloud.py:305-320). -/
def copy_files (file_list : List (List (String × String))) : M JObj := do
  _check_token
  let st ← getState
  let params : JObj := [("access_token", tokenParam st)]
  let data : JObj := [("filelist", .jstr (json_dumps_objs file_list))]
  let r ← netCall (.post "https://pan.baidu.com/rest/2.0/xpan/file?method=filemanager&opera=copy" params data)
  pure r.jsonBody

/-- `get_download_link` (baidu_cloud.py:322-340). -/
def get_download_link (file_path : String) : M String := do
  _check_token
  let st ← getState
  let params : JObj := [("access_token", tokenParam st), ("path", .jstr file_path)]
  let r ← netCall (.get "https://pan.baidu.com/rest/2.0/xpan/file?method=download" params)
  if r.status = 200 then
    pure (jGetStr r.jsonBody "dlink")
  else
    pure ""

/-- `f.write(chunk)` for each chunk of `iter_content` (`if chunk:` skips
empty chunks). -/
def writeChunks (p : String) : List (List Byte) → M Unit
  | [] => M.pure ()
  | c :: rest => do
    if c.isEmpty then pure () else fsWrite p c
    writeChunks p rest

/-- `download_file` (baidu_cloud.py:342-374). -/
def download_file (file_path local_path : String) (chunk_size : Nat) : M Bool := do
  let download_link ← get_download_link file_path
  if download_link = "" then
    pure false
  else
    M.tryCatch
      (do
        let r ← netCall (.get download_link [])
        if r.status ≠ 200 then
          pure false
        else do
          fsMkdirsParent local_path
          writeChunks local_path (readChunks chunk_size r.raw)
          pure true)
      (fun _ => pure false)

/-- `_calculate_file_md5` (baidu_cloud.py:480-493): stream the file in
4096-byte reads, absorbing each into the running MD5 state. -/
def _calculate_file_md5 (file_path : String) : M String := do
  let content ← fsReadAll file_path
  md5Hex ((readChunks 4096 content).foldl (fun acc chunk => acc ++ chunk) [])

/-- `_precreate_file` (baidu_cloud.py:495-525).  (The `md5` argument is
accepted but, as in the source, not put into the request data.) -/
def _precreate_file (remote_path : String) (file_size : Nat) (md5 : String) (ondup : String) : M JObj := do
  let st ← getState
  let params : JObj := [("access_token", tokenParam st)]
  let data : JObj :=
    [("path", .jstr remote_path),
     ("size", .jnum file_size),
     ("isdir", .jnum 0),
     ("autoinit", .jnum 1),
     ("rtype", .jnum 3),
     ("block_list", .jstr "[]"),
     ("ondup", .jstr ondup)]
  let r ← netCall (.post "https://pan.baidu.com/rest/2.0/xpan/file?method=precreate" params data)
  pure r.jsonBody

/-- `_upload_chunk` (baidu_cloud.py:527-554). -/
def _upload_chunk (chunk : List Byte) (remote_path : String) (upload_id : JVal) (block_index : Nat) : M JObj := do
  let st ← getState
  let params : JObj :=
    [("access_token", tokenParam st),
     ("path", .jstr remote_path),
     ("uploadid", upload_id),
     ("partseq", .jnum block_index)]
  let r ← netCall (.postFile "https://pan.baidu.com/rest/2.0/xpan/file?method=upload" params chunk)
  pure r.jsonBody

/-- `_create_file` (baidu_cloud.py:556-587). -/
def _create_file (remote_path : String) (file_size : Nat) (upload_id : JVal)
    (block_list : List String) (ondup : String) : M JObj := do
  let st ← getState
  let params : JObj := [("access_token", tokenParam st)]
  let data : JObj :=
    [("path", .jstr remote_path),
     ("size", .jnum file_size),
     ("isdir", .jnum 0),
     ("uploadid", upload_id),
     ("block_list", .jstr (json_dumps_strs block_list)),
     ("ondup", .jstr ondup)]
  let r ← netCall (.post "https://pan.baidu.com/rest/2.0/xpan/file?method=create" params data)
  pure r.jsonBody

/-- The `while True` chunk loop of `_upload_large_file`
(baidu_cloud.py:459-475): read a 4 MiB chunk, stop on empty read, upload
it, abort on a non-zero `errno` (`Sum.inl` carries that chunk's payload),
else record the chunk's MD5 and continue (`Sum.inr` carries the final
`block_list`). -/
def uploadChunksLoop (remote_path : String) (upload_id : JVal) (rest : List Byte)
    (block_index : Nat) (block_list : List String) : M (JObj ⊕ List String) :=
  if h : rest = [] then
    M.pure (.inr block_list)
  else do
    let chunk := rest.take (4 * 1024 * 1024)
    let result ← _upload_chunk chunk remote_path upload_id block_index
    if errno_nonzero result then
      pure (.inl result)
    else do
      let hsh ← md5Hex chunk
      uploadChunksLoop remote_path upload_id (rest.drop (4 * 1024 * 1024))
        (block_index + 1) (block_list ++ [hsh])
termination_by rest.length
decreasing_by
  have hp : 0 < rest.length := List.length_pos.mpr h
  simp only [List.length_drop]
  omega

/-- `_upload_large_file` (baidu_cloud.py:431-478). -/
def _upload_large_file (local_path remote_path ondup : String) : M JObj := do
  let file_size ← fsGetSize local_path
  let md5 ← _calculate_file_md5 local_path
  let precreate_result ← _precreate_file remote_path file_size md5 ondup
  if errno_nonzero precreate_result then
    pure precreate_result
  else do
    let upload_id := JObj.getD precreate_result "uploadid" (.jstr "")
    if ¬ upload_id.truthy then
      pure [("errno", .jnum (-1)), ("errmsg", .jstr "获取上传ID失败")]
    else do
      let content ← fsReadAll local_path
      let r ← uploadChunksLoop remote_path upload_id content 0 []
      match r with
      | .inl err => pure err
      | .inr block_list => _create_file remote_path file_size upload_id block_list ondup

/-- `_upload_small_file` (baidu_cloud.py:403-429). -/
def _upload_small_file (local_path remote_path ondup : String) : M JObj := do
  let st ← getState
  let params : JObj :=
    [("access_token", tokenParam st),
     ("path", .jstr remote_path),
     ("ondup", .jstr ondup)]
  let content ← fsReadAll local_path
  let r ← netCall (.postFile "https://pan.baidu.com/rest/2.0/xpan/file?method=upload" params content)
  pure r.jsonBody

/-- `upload_file` (baidu_cloud.py:376-401). -/
def upload_file (local_path remote_path ondup : String) : M JObj := do
  _check_token
  let exists_ ← fsIsFile local_path
  if ¬ exists_ then
    M.throw (.fileNotFoundError ("文件不存在: " ++ local_path))
  else do
    let file_size ← fsGetSize local_path
    if file_size > 4 * 1024 * 1024 then
      _upload_large_file local_path remote_path ondup
    else
      _upload_small_file local_path remote_path ondup

/-- `create_share` (baidu_cloud.py:589-624); `password = none` is Python
`None` (no `pwd` field is sent then). -/
def create_share (file_paths : List String) (period : Int)
    (password : Option String) (description : String) : M JObj := do
  _check_token
  let st ← getState
  let params : JObj := [("access_token", tokenParam st)]
  let data : JObj :=
    [("path_list", .jstr (json_dumps_strs file_paths)),
     ("period", .jnum period),
     ("channel_list", .jstr "[0]"),
     ("schannel", .jnum 4),
     ("description", .jstr description)]
  let data :=
    match password with
    | some pw => if pw ≠ "" then data ++ [("pwd", .jstr pw)] else data
    | none => data
  let r ← netCall (.post "https://pan.baidu.com/rest/2.0/xpan/share?method=set" params data)
  pure r.jsonBody

/-- `list_shares` (baidu_cloud.py:626-649). -/
def list_shares (start limit : Int) : M JObj := do
  _check_token
  let st ← getState
  let params : JObj :=
    [("access_token", tokenParam st),
     ("start", .jnum start),
     ("limit", .jnum limit)]
  let r ← netCall (.get "https://pan.baidu.com/rest/2.0/xpan/share?method=list" params)
  pure r.jsonBody

/-- `cancel_share` (baidu_cloud.py:651-671). -/
def cancel_share (share_ids : List String) : M JObj := do
  _check_token
  let st ← getState
  let params : JObj := [("access_token", tokenParam st)]
  let data : JObj := [("shareid_list", .jstr (json_dumps_strs share_ids))]
  let r ← netCall (.post "https://pan.baidu.com/rest/2.0/xpan/share?method=cancel" params data)
  pure r.jsonBody

/-- The query params of the token-refresh GET (baidu_cloud.py:124-129). -/
def refresh_params (st : ClientState) : JObj :=
  [("grant_type", .jstr "refresh_token"),
   ("refresh_token", st.refresh_token.getD .jnull),
   ("client_id", .jstr st.app_key),
   ("client_secret", .jstr st.secret_key)]

/-- The network request issued by `refresh_access_token`. -/
def refresh_call (st : ClientState) : NetCall :=
  .get "https://openapi.baidu.com/oauth/2.0/token" (refresh_params st)

/-- The state mutation `refresh_access_token` performs on a JSON response
`body`, reading the clock value `now` (baidu_cloud.py:133-139). -/
def refresh_state_update (st : ClientState) (body : JObj) (now : Int) : ClientState :=
  if JObj.hasKey body "access_token" then
    let st2 := { st with access_token := some (JObj.getD body "access_token" .jnull) }
    let st3 :=
      if JObj.hasKey body "refresh_token" then
        { st2 with refresh_token := some (JObj.getD body "refresh_token" .jnull) }
      else st2
    if JObj.hasKey body "expires_in" then
      { st3 with token_expire_time := now + (JObj.getD body "expires_in" .jnull).asInt }
    else st3
  else st

/-- How many clock reads `refresh_access_token` performs on response `body`. -/
def refresh_clocks (body : JObj) : Nat :=
  if JObj.hasKey body "access_token" ∧ JObj.hasKey body "expires_in" then 1 else 0

/-- The query params of one chunk upload (baidu_cloud.py:540-545). -/
def chunk_params (st : ClientState) (remote_path : String) (upload_id : JVal) (block_index : Nat) : JObj :=
  [("access_token", tokenParam st),
   ("path", .jstr remote_path),
   ("uploadid", upload_id),
   ("partseq", .jnum block_index)]

/-- The network request issued by `_upload_chunk`. -/
def chunk_call (st : ClientState) (remote_path : String) (upload_id : JVal)
    (chunk : List Byte) (block_index : Nat) : NetCall :=
  .postFile "https://pan.baidu.com/rest/2.0/xpan/file?method=upload"
    (chunk_params st remote_path upload_id block_index) chunk

/-- A chunk-upload answer that does not abort the loop: a response whose
`errno` is absent or zero. -/
def chunk_ok (r : NetResult) : Bool :=
  match r with
  | .resp _ b _ => !(errno_nonzero b)
  | .exn _ => false

/-- The form data of the precreate POST (baidu_cloud.py:509-517). -/
def precreate_data (remote_path : String) (file_size : Nat) (ondup : String) : JObj :=
  [("path", .jstr remote_path),
   ("size", .jnum file_size),
   ("isdir", .jnum 0),
   ("autoinit", .jnum 1),
   ("rtype", .jnum 3),
   ("block_list", .jstr "[]"),
   ("ondup", .jstr ondup)]

/-- The network request issued by `_precreate_file`. -/
def precreate_call (st : ClientState) (remote_path : String) (file_size : Nat) (ondup : String) : NetCall :=
  .post "https://pan.baidu.com/rest/2.0/xpan/file?method=precreate"
    [("access_token", tokenParam st)] (precreate_data remote_path file_size ondup)

/-- The form data of the finalize POST (baidu_cloud.py:572-579). -/
def create_data (remote_path : String) (file_size : Nat) (upload_id : JVal)
    (block_list : List String) (ondup : String) : JObj :=
  [("path", .jstr remote_path),
   ("size", .jnum file_size),
   ("isdir", .jnum 0),
   ("uploadid", upload_id),
   ("block_list", .jstr (json_dumps_strs block_list)),
   ("ondup", .jstr ondup)]

/-- The network request issued by `_create_file`. -/
def create_call (st : ClientState) (remote_path : String) (file_size : Nat) (upload_id : JVal)
    (block_list : List String) (ondup : String) : NetCall :=
  .post "https://pan.baidu.com/rest/2.0/xpan/file?method=create"
    [("access_token", tokenParam st)] (create_data remote_path file_size upload_id block_list ondup)

/-- A token state under which `_check_token` at clock value `t` performs no
refresh (the negation of the refresh condition at baidu_cloud.py:62). -/
def no_refresh_due (st : ClientState) (t : Int) : Prop :=
  ¬(st.token_expire_time > 0 ∧ t ≥ st.token_expire_time - 60 ∧ st.auto_refresh = true)

/-- The query params of the small-file upload POST (baidu_cloud.py:415-419). -/
def small_upload_params (st : ClientState) (remote_path ondup : String) : JObj :=
  [("access_token", tokenParam st),
   ("path", .jstr remote_path),
   ("ondup", .jstr ondup)]

/-- The single network request issued by `_upload_small_file`. -/
def small_upload_call (st : ClientState) (remote_path ondup : String) (file : List Byte) : NetCall :=
  .postFile "https://pan.baidu.com/rest/2.0/xpan/file?method=upload"
    (small_upload_params st remote_path ondup) file

/-- The outcome of a token-gated call made without an access token: the
`ValueError` of `_check_token`, the state and effect log untouched. -/
def authFailResult {α : Type} (st : ClientState) (eff : Eff) :
    Except PyErr α × ClientState × Eff :=
  (.error (.valueError "未设置access_token，请先获取授权"), st, eff)

/-- The query params of the download-link GET (baidu_cloud.py:333-336). -/
def dl_params (st : ClientState) (file_path : String) : JObj :=
  [("access_token", tokenParam st), ("path", .jstr file_path)]

/-- The network request issued by `get_download_link`. -/
def dl_call (st : ClientState) (file_path : String) : NetCall :=
  .get "https://pan.baidu.com/rest/2.0/xpan/file?method=download" (dl_params st file_path)

/-- A world whose very first network request raises a transport exception. -/
def cexEnv : Env :=
  ⟨fun _ => .exn "connection reset", fun _ => 0, fun _ => none, fun _ => ""⟩

/-- A client holding a valid access token whose expiry is unknown. -/
def cexSt : ClientState := ⟨"ak", "sk", some (.jstr "tok"), none, true, 0⟩

/-- A client with both tokens set and no known expiry. -/
def wSt : ClientState := ⟨"app", "secret", some (.jstr "token"), some (.jstr "refresh"), true, 0⟩

/-- A client with no tokens at all. -/
def wStNoTok : ClientState := ⟨"app", "secret", none, none, true, 0⟩

/-- A world holding a 100-byte and a 4 MiB + 1 B file. -/
def w1Env : Env :=
  ⟨fun _ => .resp 200 [("errno", .jnum 0)] [], fun _ => 0,
   fun p => if p = "/small" then some (List.replicate 100 7) else
     if p = "/big" then some (List.replicate 4194305 7) else none,
   fun _ => "d"⟩

/-- A world where precreate succeeds, chunk 0 succeeds and chunk 1 is
answered with a non-zero `errno`. -/
def c2Env : Env :=
  ⟨fun n => if n = 0 then .resp 200 [("errno", .jnum 0), ("uploadid", .jstr "U")] []
    else if n = 1 then .resp 200 [("errno", .jnum 0)] []
    else .resp 200 [("errno", .jnum 2)] [],
   fun _ => 0,
   fun p => if p = "/big" then some (List.replicate 4194305 0) else none,
   fun _ => "h"⟩

/-- A world where a whole chunked upload succeeds. -/
def c3Env : Env :=
  ⟨fun n => if n = 0 then .resp 200 [("errno", .jnum 0), ("uploadid", .jstr "U")] []
    else if n = 3 then .resp 200 [("errno", .jnum 0), ("fs_id", .jnum 77)] []
    else .resp 200 [("errno", .jnum 0)] [],
   fun _ => 0,
   fun p => if p = "/big" then some (List.replicate 4194305 9) else none,
   fun _ => "hash"⟩

/-- A world whose precreate answer has `errno` 0 but no `uploadid`. -/
def c4Env : Env :=
  ⟨fun _ => .resp 200 [("errno", .jnum 0)] [], fun _ => 0,
   fun p => if p = "/big" then some (List.replicate 4194305 0) else none, fun _ => "d"⟩

/-- A world that is never reached (used with a token-less client). -/
def idleEnv : Env := ⟨fun _ => .resp 200 [] [], fun _ => 0, fun _ => none, fun _ => ""⟩

/-- A world whose clock reads `t` and whose responses are empty objects. -/
def w6Env (t : Int) : Env := ⟨fun _ => .resp 200 [] [], fun _ => t, fun _ => none, fun _ => ""⟩

/-- A world where the download link resolves and the body download succeeds. -/
def w7Env : Env :=
  ⟨fun n => if n = 0 then .resp 200 [("dlink", .jstr "https://d.example/x")] []
    else .resp 200 [] [1, 2, 3],
   fun _ => 0, fun _ => none, fun _ => ""⟩

/-- A world holding a two-byte file, with a digest that depends on the bytes. -/
def w8Env : Env :=
  ⟨fun _ => .resp 200 [] [], fun _ => 0,
   fun p => if p = "/doc.txt" then some [104, 105] else none,
   fun l => toString l.length⟩

/-- A world whose token endpoint answers without an `access_token` key. -/
def w10Env : Env :=
  ⟨fun _ => .resp 200 [("error", .jstr "expired_token")] [], fun _ => 0, fun _ => none, fun _ => ""⟩

theorem bind_eq {α β : Type} (x : M α) (f : α → M β) : x >>= f = M.bind x f := rfl

theorem pure_eq {α : Type} (a : α) : (pure a : M α) = M.pure a := rfl

theorem ite_app {α : Type} (c : Prop) [Decidable c] (a b : M α) (env : Env) (st : ClientState) (eff : Eff) :
    (if c then a else b) env st eff = if c then a env st eff else b env st eff := by
  split <;> rfl

theorem check_token_no_token (env : Env) (st : ClientState) (eff : Eff)
    (h : truthyOpt st.access_token = false) :
    _check_token env st eff = (.error (.valueError "未设置access_token，请先获取授权"), st, eff) := by
  simp [_check_token, bind_eq, M.bind, getState, M.throw, h, ite_app]

theorem check_token_fresh (env : Env) (st : ClientState) (eff : Eff)
    (h : truthyOpt st.access_token = true)
    (hno : ¬(st.token_expire_time > 0 ∧ env.clock eff.clocks ≥ st.token_expire_time - 60 ∧ st.auto_refresh = true)) :
    _check_token env st eff = (.ok (), st, { eff with clocks := eff.clocks + 1 }) := by
  simp only [_check_token, bind_eq, M.bind, getState, clockRead, M.throw, pure_eq, M.pure, h,
    ite_app]
  rw [if_neg (by simp), if_neg hno]

theorem check_token_due (env : Env) (st : ClientState) (eff : Eff)
    (h : truthyOpt st.access_token = true)
    (hdo : st.token_expire_time > 0 ∧ env.clock eff.clocks ≥ st.token_expire_time - 60 ∧ st.auto_refresh = true) :
    _check_token env st eff =
      M.bind refresh_access_token (fun _ => M.pure ()) env st { eff with clocks := eff.clocks + 1 } := by
  simp only [_check_token, bind_eq, M.bind, getState, clockRead, M.throw, pure_eq, M.pure, h,
    ite_app]
  rw [if_neg (by simp), if_pos hdo]

theorem refresh_no_token (env : Env) (st : ClientState) (eff : Eff)
    (h : truthyOpt st.refresh_token = false) :
    refresh_access_token env st eff =
      (.error (.valueError "未设置refresh_token，无法刷新token"), st, eff) := by
  simp [refresh_access_token, bind_eq, M.bind, getState, M.throw, h, ite_app]

theorem refresh_resp (env : Env) (st : ClientState) (eff : Eff) (s : Int) (body : JObj)
    (raw : List Byte) (h : truthyOpt st.refresh_token = true)
    (hnet : env.net eff.nets = .resp s body raw) :
    refresh_access_token env st eff =
      (.ok body, refresh_state_update st body (env.clock eff.clocks),
       { trace := eff.trace ++ [refresh_call st], nets := eff.nets + 1,
         clocks := eff.clocks + refresh_clocks body, fsOps := eff.fsOps }) := by
  simp only [refresh_access_token, bind_eq, M.bind, getState, clockRead, setState, M.throw,
    pure_eq, M.pure, netCall, hnet, h, ite_app, NetResult.jsonBody,
    refresh_state_update, refresh_clocks, refresh_call, refresh_params]
  rw [if_neg (by simp)]
  split
  · split
    · split <;> simp_all
    · split <;> simp_all
  · simp_all

theorem refresh_exn (env : Env) (st : ClientState) (eff : Eff) (m : String)
    (h : truthyOpt st.refresh_token = true)
    (hnet : env.net eff.nets = .exn m) :
    refresh_access_token env st eff =
      (.error (.transportError m), st,
       { trace := eff.trace ++ [refresh_call st], nets := eff.nets + 1,
         clocks := eff.clocks, fsOps := eff.fsOps }) := by
  simp only [refresh_access_token, bind_eq, M.bind, getState, clockRead, setState, M.throw,
    pure_eq, M.pure, netCall, hnet, h, ite_app, NetResult.jsonBody, refresh_call, refresh_params]
  rw [if_neg (by simp)]

theorem loop_nil (rp : String) (uid : JVal) (bi : Nat) (bl : List String) :
    uploadChunksLoop rp uid [] bi bl = M.pure (.inr bl) := by
  unfold uploadChunksLoop
  simp

theorem loop_cons (rp : String) (uid : JVal) (rest : List Byte) (bi : Nat) (bl : List String)
    (h : rest ≠ []) :
    uploadChunksLoop rp uid rest bi bl =
      (do
        let chunk := rest.take (4 * 1024 * 1024)
        let result ← _upload_chunk chunk rp uid bi
        if errno_nonzero result then
          pure (.inl result)
        else do
          let hsh ← md5Hex chunk
          uploadChunksLoop rp uid (rest.drop (4 * 1024 * 1024)) (bi + 1) (bl ++ [hsh])) := by
  conv_lhs => rw [uploadChunksLoop]
  simp [h]

theorem upload_chunk_resp (env : Env) (st : ClientState) (eff : Eff) (chunk : List Byte)
    (rp : String) (uid : JVal) (bi : Nat) (s : Int) (body : JObj) (raw : List Byte)
    (hnet : env.net eff.nets = .resp s body raw) :
    _upload_chunk chunk rp uid bi env st eff =
      (.ok body, st,
       ⟨eff.trace ++ [chunk_call st rp uid chunk bi], eff.nets + 1, eff.clocks, eff.fsOps⟩) := by
  simp [_upload_chunk, bind_eq, M.bind, pure_eq, M.pure, getState, netCall, hnet,
    NetResult.jsonBody, chunk_call, chunk_params]

theorem loop_fail (rp : String) (uid : JVal) (env : Env) (st : ClientState) :
    ∀ (j : Nat) (rest : List Byte) (bi : Nat) (bl : List String) (eff : Eff)
      (s : Int) (body : JObj) (raw : List Byte),
      (∀ i, i < j → chunk_ok (env.net (eff.nets + i)) = true) →
      env.net (eff.nets + j) = .resp s body raw →
      errno_nonzero body = true →
      4194304 * j < rest.length →
      uploadChunksLoop rp uid rest bi bl env st eff =
        (.ok (.inl body), st,
         ⟨eff.trace ++ (List.range (j + 1)).map
            (fun i => chunk_call st rp uid ((rest.drop (4194304 * i)).take 4194304) (bi + i)),
          eff.nets + (j + 1), eff.clocks, eff.fsOps⟩) := by
  intro j
  induction j with
  | zero =>
    intro rest bi bl eff s body raw _hok hnet herr hlen
    have hne : rest ≠ [] := by
      intro hh
      simp [hh] at hlen
    rw [loop_cons rp uid rest bi bl hne]
    simp only [bind_eq, M.bind, pure_eq, M.pure, md5Hex]
    rw [upload_chunk_resp env st eff _ rp uid bi s body raw (by simpa using hnet)]
    simp [herr, ite_app, M.pure, List.range_succ]
  | succ j ih =>
    intro rest bi bl eff s body raw hok hnet herr hlen
    have hne : rest ≠ [] := by
      intro hh
      simp [hh] at hlen
    obtain ⟨s0, b0, r0, hn0, hb0⟩ :
        ∃ s0 b0 r0, env.net eff.nets = .resp s0 b0 r0 ∧ errno_nonzero b0 = false := by
      have h0 := hok 0 (by omega)
      rw [Nat.add_zero] at h0
      rcases hn : env.net eff.nets with ⟨s0, b0, r0⟩ | m
      · refine ⟨s0, b0, r0, rfl, ?_⟩
        rw [hn] at h0
        simpa [chunk_ok] using h0
      · rw [hn] at h0
        simp [chunk_ok] at h0
    rw [loop_cons rp uid rest bi bl hne]
    simp only [bind_eq, M.bind, pure_eq, M.pure, md5Hex]
    rw [upload_chunk_resp env st eff _ rp uid bi s0 b0 r0 (by simpa using hn0)]
    simp only [hb0, ite_app, Bool.false_eq_true, if_false]
    simp only [bind_eq, M.bind, md5Hex]
    norm_num
    rw [ih (rest.drop 4194304) (bi + 1) (bl ++ [env.digest (rest.take 4194304)])
        ⟨eff.trace ++ [chunk_call st rp uid (rest.take 4194304) bi], eff.nets + 1, eff.clocks, eff.fsOps⟩
        s body raw ?_ ?_ herr ?_]
    · refine congrArg (fun e => ((Except.ok (Sum.inl body) : Except PyErr (JObj ⊕ List String)), st, e)) ?_
      have key : ∀ (g : Nat → NetCall) (n : Nat),
          (List.range (n + 1)).map g = g 0 :: (List.range n).map (g ∘ Nat.succ) := by
        intro g n
        rw [List.range_succ_eq_map, List.map_cons, List.map_map]
      simp only [Eff.mk.injEq, List.append_assoc, List.singleton_append]
      refine ⟨?_, ?_, ?_, ?_⟩
      · conv_rhs => rw [key _ (j + 1)]
        simp only [Nat.mul_zero, List.drop_zero, Nat.add_zero]
        refine congrArg (fun l => eff.trace ++ chunk_call st rp uid (List.take 4194304 rest) bi :: l) ?_
        refine List.map_congr_left ?_
        intro i _hi
        simp only [Function.comp]
        rw [List.drop_drop, show 4194304 + 4194304 * i = 4194304 * (i + 1) from by ring,
          show bi + 1 + i = bi + (i + 1) from by omega]
      · omega
      · trivial
      · trivial
    · intro i hi
      rw [show eff.nets + 1 + i = eff.nets + (i + 1) from by omega]
      exact hok (i + 1) (by omega)
    · rw [show eff.nets + 1 + j = eff.nets + (j + 1) from by omega]
      exact hnet
    · rw [List.length_drop]
      omega

theorem readChunks_nil (n : Nat) : readChunks n [] = [] := by
  rw [readChunks]
  simp

theorem readChunks_cons (n : Nat) (l : List Byte) (hn : n ≠ 0) (hl : l ≠ []) :
    readChunks n l = l.take n :: readChunks n (l.drop n) := by
  rw [readChunks]
  simp [hn, hl]

theorem readChunks_nil_of_len (n : Nat) (l : List Byte)
    (h : (readChunks n l).length = 0) (hn : n ≠ 0) : l = [] := by
  by_contra hl
  rw [readChunks_cons n l hn hl] at h
  simp at h

theorem loop_ok (rp : String) (uid : JVal) (env : Env) (st : ClientState) :
    ∀ (k : Nat) (rest : List Byte) (bi : Nat) (bl : List String) (eff : Eff),
      (readChunks 4194304 rest).length = k →
      (∀ i, i < k → chunk_ok (env.net (eff.nets + i)) = true) →
      uploadChunksLoop rp uid rest bi bl env st eff =
        (.ok (.inr (bl ++ (readChunks 4194304 rest).map env.digest)), st,
         ⟨eff.trace ++ (List.range k).map
            (fun i => chunk_call st rp uid ((rest.drop (4194304 * i)).take 4194304) (bi + i)),
          eff.nets + k, eff.clocks, eff.fsOps⟩) := by
  intro k
  induction k with
  | zero =>
    intro rest bi bl eff hlen _hok
    have hrest : rest = [] := readChunks_nil_of_len _ _ hlen (by norm_num)
    subst hrest
    rw [loop_nil]
    simp [M.pure, readChunks_nil]
  | succ k ih =>
    intro rest bi bl eff hlen hok
    have hne : rest ≠ [] := by
      intro hh
      rw [hh, readChunks_nil] at hlen
      simp at hlen
    have hchunks : readChunks 4194304 rest = rest.take 4194304 :: readChunks 4194304 (rest.drop 4194304) :=
      readChunks_cons _ _ (by norm_num) hne
    obtain ⟨s0, b0, r0, hn0, hb0⟩ :
        ∃ s0 b0 r0, env.net eff.nets = .resp s0 b0 r0 ∧ errno_nonzero b0 = false := by
      have h0 := hok 0 (by omega)
      rw [Nat.add_zero] at h0
      rcases hn : env.net eff.nets with ⟨s0, b0, r0⟩ | m
      · refine ⟨s0, b0, r0, rfl, ?_⟩
        rw [hn] at h0
        simpa [chunk_ok] using h0
      · rw [hn] at h0
        simp [chunk_ok] at h0
    rw [loop_cons rp uid rest bi bl hne]
    simp only [bind_eq, M.bind, pure_eq, M.pure, md5Hex]
    rw [upload_chunk_resp env st eff _ rp uid bi s0 b0 r0 (by simpa using hn0)]
    simp only [hb0, ite_app, Bool.false_eq_true, if_false]
    simp only [bind_eq, M.bind, md5Hex]
    norm_num
    rw [ih (rest.drop 4194304) (bi + 1) (bl ++ [env.digest (rest.take 4194304)])
        ⟨eff.trace ++ [chunk_call st rp uid (rest.take 4194304) bi], eff.nets + 1, eff.clocks, eff.fsOps⟩
        ?_ ?_]
    · have key : ∀ (g : Nat → NetCall) (n : Nat),
          (List.range (n + 1)).map g = g 0 :: (List.range n).map (g ∘ Nat.succ) := by
        intro g n
        rw [List.range_succ_eq_map, List.map_cons, List.map_map]
      rw [hchunks]
      simp only [Prod.mk.injEq, Eff.mk.injEq, List.append_assoc, List.singleton_append,
        List.map_cons]
      refine ⟨trivial, trivial, ?_, by omega, trivial, trivial⟩
      conv_rhs => rw [key _ k]
      simp only [Nat.mul_zero, List.drop_zero, Nat.add_zero]
      refine congrArg (fun l => eff.trace ++ chunk_call st rp uid (List.take 4194304 rest) bi :: l) ?_
      refine List.map_congr_left ?_
      intro i _hi
      simp only [Function.comp]
      rw [List.drop_drop, show 4194304 + 4194304 * i = 4194304 * (i + 1) from by ring,
        show bi + 1 + i = bi + (i + 1) from by omega]
    · rw [hchunks] at hlen
      simpa using hlen
    · intro i hi
      rw [show eff.nets + 1 + i = eff.nets + (i + 1) from by omega]
      exact hok (i + 1) (by omega)

theorem replicate_big_ne (b : Byte) : List.replicate 4194305 b ≠ [] := by
  apply List.ne_nil_of_length_pos
  rw [List.length_replicate]
  norm_num

theorem readChunks_big_replicate (b : Byte) :
    readChunks 4194304 (List.replicate 4194305 b) = [List.replicate 4194304 b, [b]] := by
  rw [readChunks_cons _ _ (by norm_num) (replicate_big_ne b)]
  rw [List.take_replicate, List.drop_replicate]
  norm_num
  rw [readChunks_cons _ _ (by norm_num) (List.cons_ne_nil b [])]
  rw [List.take_of_length_le (by norm_num), List.drop_of_length_le (by norm_num),
    readChunks_nil]

theorem readChunks_foldl (n : Nat) (hn : n ≠ 0) :
    ∀ (len : Nat) (l : List Byte), l.length ≤ len → ∀ (acc : List Byte),
      (readChunks n l).foldl (fun a c => a ++ c) acc = acc ++ l := by
  intro len
  induction len with
  | zero =>
    intro l hl acc
    have hnil : l = [] := List.eq_nil_of_length_eq_zero (by omega)
    subst hnil
    rw [readChunks_nil]
    simp
  | succ k ih =>
    intro l hl acc
    by_cases hnil : l = []
    · subst hnil
      rw [readChunks_nil]
      simp
    · rw [readChunks_cons n l hn hnil]
      simp only [List.foldl_cons]
      rw [ih (l.drop n) (by rw [List.length_drop]; omega) (acc ++ l.take n)]
      rw [List.append_assoc, List.take_append_drop]

theorem calculate_file_md5_run (env : Env) (st : ClientState) (eff : Eff)
    (file_path : String) (file : List Byte) (hfs : env.fs file_path = some file) :
    _calculate_file_md5 file_path env st eff = (.ok (env.digest file), st, eff) := by
  simp only [_calculate_file_md5, bind_eq, M.bind, fsReadAll, hfs, md5Hex]
  rw [readChunks_foldl 4096 (by norm_num) file.length file le_rfl []]
  simp

theorem loop_trace_prefix (rp : String) (uid : JVal) (env : Env) (st : ClientState) :
    ∀ (len : Nat) (rest : List Byte), rest.length ≤ len →
      ∀ (bi : Nat) (bl : List String) (eff : Eff),
      ∃ t, ((uploadChunksLoop rp uid rest bi bl env st eff).2.2).trace = eff.trace ++ t := by
  intro len
  induction len with
  | zero =>
    intro rest hl bi bl eff
    have hnil : rest = [] := List.eq_nil_of_length_eq_zero (by omega)
    subst hnil
    rw [loop_nil]
    exact ⟨[], by simp [M.pure]⟩
  | succ k ih =>
    intro rest hl bi bl eff
    by_cases hnil : rest = []
    · subst hnil
      rw [loop_nil]
      exact ⟨[], by simp [M.pure]⟩
    · rw [loop_cons rp uid rest bi bl hnil]
      simp only [bind_eq, M.bind, pure_eq, M.pure, md5Hex, _upload_chunk, getState, netCall,
        NetResult.jsonBody]
      rcases hn : env.net eff.nets with ⟨s1, b1, r1⟩ | m
      · by_cases herr : errno_nonzero b1 = true
        · refine ⟨[chunk_call st rp uid (rest.take (4 * 1024 * 1024)) bi], ?_⟩
          simp [herr, ite_app, M.pure, chunk_call, chunk_params]
        · obtain ⟨t, ht⟩ := ih (rest.drop (4 * 1024 * 1024))
            (by rw [List.length_drop]; omega) (bi + 1)
            (bl ++ [env.digest (rest.take (4 * 1024 * 1024))])
            ⟨eff.trace ++ [chunk_call st rp uid (rest.take (4 * 1024 * 1024)) bi],
             eff.nets + 1, eff.clocks, eff.fsOps⟩
          refine ⟨chunk_call st rp uid (rest.take (4 * 1024 * 1024)) bi :: t, ?_⟩
          simp only [Bool.not_eq_true] at herr
          simp only [herr, ite_app, Bool.false_eq_true, if_false, chunk_call, chunk_params]
          simp only [chunk_call, chunk_params] at ht
          simp only [bind_eq, M.bind, md5Hex]
          rw [ht]
          simp
      · exact ⟨[chunk_call st rp uid (rest.take (4 * 1024 * 1024)) bi],
          by simp [chunk_call, chunk_params]⟩

theorem create_file_trace (env : Env) (st : ClientState) (eff : Eff) (rp : String)
    (n : Nat) (uid : JVal) (bl : List String) (od : String) :
    ((_create_file rp n uid bl od env st eff).2.2).trace =
      eff.trace ++ [create_call st rp n uid bl od] := by
  simp only [_create_file, bind_eq, M.bind, pure_eq, M.pure, getState, netCall,
    NetResult.jsonBody, create_call, create_data]
  rcases hn : env.net eff.nets with ⟨s1, b1, r1⟩ | m <;> simp

theorem upload_large_trace (env : Env) (st : ClientState) (eff : Eff)
    (local_path rp od : String) (file : List Byte) (hfs : env.fs local_path = some file) :
    ∃ later, ((_upload_large_file local_path rp od env st eff).2.2).trace =
      eff.trace ++ precreate_call st rp file.length od :: later := by
  simp only [_upload_large_file, bind_eq, M.bind, pure_eq, M.pure, fsGetSize, fsReadAll, hfs,
    _precreate_file, getState, netCall, NetResult.jsonBody, Option.getD_some]
  rw [calculate_file_md5_run env st eff local_path file hfs]
  rcases hn : env.net eff.nets with ⟨s1, b1, r1⟩ | m
  · simp only [hn]
    by_cases herr : errno_nonzero b1 = true
    · exact ⟨[], by simp [herr, ite_app, M.pure, precreate_call, precreate_data]⟩
    · simp only [Bool.not_eq_true] at herr
      by_cases huid : (JObj.getD b1 "uploadid" (.jstr "")).truthy = true
      · simp only [herr, huid, ite_app, Bool.false_eq_true, if_false, if_true, Bool.not_true,
          Bool.true_eq_false, not_true, not_false_iff, ite_true, ite_false]
        simp only [bind_eq, M.bind, fsReadAll, hfs]
        obtain ⟨t1, ht1⟩ := loop_trace_prefix rp (JObj.getD b1 "uploadid" (.jstr "")) env st
          file.length file le_rfl 0 []
          ⟨eff.trace ++ [precreate_call st rp file.length od], eff.nets + 1, eff.clocks, eff.fsOps⟩
        rcases hrun : uploadChunksLoop rp (JObj.getD b1 "uploadid" (.jstr "")) file 0 [] env st
            ⟨eff.trace ++ [precreate_call st rp file.length od],
             eff.nets + 1, eff.clocks, eff.fsOps⟩ with ⟨res, st2, eff2⟩
        rw [hrun] at ht1
        simp only [precreate_call, precreate_data] at hrun
        rw [hrun]
        have ht1e : eff2.trace = (eff.trace ++ [precreate_call st rp file.length od]) ++ t1 := ht1
        rcases res with e | a
        · refine ⟨t1, ?_⟩
          simp only []
          rw [ht1e]
          simp
        · rcases a with err | bl
          · refine ⟨t1, ?_⟩
            simp only [M.pure]
            rw [ht1e]
            simp
          · refine ⟨t1 ++ [create_call st2 rp file.length (JObj.getD b1 "uploadid" (.jstr "")) bl od], ?_⟩
            simp only []
            rw [create_file_trace env st2 eff2 rp file.length _ bl od, ht1e]
            simp
      · simp only [Bool.not_eq_true] at huid
        exact ⟨[], by simp [herr, huid, ite_app, M.pure, precreate_call, precreate_data]⟩
  · exact ⟨[], by simp [hn, precreate_call, precreate_data]⟩

theorem get_download_link_resp (env : Env) (st : ClientState) (file_path : String)
    (s0 : Int) (b0 : JObj) (r0 : List Byte)
    (htok : truthyOpt st.access_token = true)
    (hfresh : no_refresh_due st (env.clock 0))
    (hnet : env.net 0 = .resp s0 b0 r0) :
    get_download_link file_path env st initEff =
      (.ok (if s0 = 200 then jGetStr b0 "dlink" else ""), st, ⟨[dl_call st file_path], 1, 1, []⟩) := by
  simp only [get_download_link, bind_eq, M.bind]
  rw [check_token_fresh env st initEff htok hfresh]
  simp only [bind_eq, M.bind, pure_eq, M.pure, getState, netCall, initEff, hnet,
    NetResult.jsonBody, NetResult.status, ite_app, dl_call, dl_params]
  split <;> simp

theorem writeChunks_run (lp : String) :
    ∀ (chunks : List (List Byte)) (env : Env) (st : ClientState) (eff : Eff),
      ∃ ws, writeChunks lp chunks env st eff = (.ok (), st, { eff with fsOps := eff.fsOps ++ ws }) ∧
        ∀ op ∈ ws, ∃ c, op = FsOp.write lp c := by
  intro chunks
  induction chunks with
  | nil =>
    intro env st eff
    exact ⟨[], by simp [writeChunks, M.pure], by simp⟩
  | cons c rest ih =>
    intro env st eff
    by_cases hc : c.isEmpty
    · obtain ⟨ws, hws, hall⟩ := ih env st eff
      refine ⟨ws, ?_, hall⟩
      simp only [writeChunks, bind_eq, M.bind, pure_eq, M.pure, hc, ite_app, if_true]
      rw [hws]
    · obtain ⟨ws, hws, hall⟩ := ih env st { eff with fsOps := eff.fsOps ++ [.write lp c] }
      refine ⟨.write lp c :: ws, ?_, ?_⟩
      · simp only [writeChunks, bind_eq, M.bind, pure_eq, M.pure, hc, ite_app,
          Bool.false_eq_true, if_false, fsWrite]
        rw [hws]
        simp
      · intro op hop
        rw [List.mem_cons] at hop
        rcases hop with h | h
        · exact ⟨c, h⟩
        · exact hall op h

/-- C1: an upload of an existing file takes the direct single-request path
exactly when the size is at most 4,194,304 bytes — one upload POST, no
precreate/chunk/finalize — and the chunked path (whose first request is
the precreate) exactly when the size is strictly greater. -/
theorem upload_file_size_threshold (env : Env) (st : ClientState) (local_path remote_path ondup : String)
    (file : List Byte)
    (htok : truthyOpt st.access_token = true)
    (hfresh : no_refresh_due st (env.clock 0))
    (hfs : env.fs local_path = some file) :
    (file.length ≤ 4 * 1024 * 1024 →
      (upload_file local_path remote_path ondup env st initEff).2.2 =
        ⟨[small_upload_call st remote_path ondup file], 1, 1, []⟩) ∧
    (4 * 1024 * 1024 < file.length →
      ∃ later, ((upload_file local_path remote_path ondup env st initEff).2.2).trace =
        precreate_call st remote_path file.length ondup :: later) := by
  constructor
  · intro hle
    simp only [upload_file, bind_eq, M.bind]
    rw [check_token_fresh env st initEff htok hfresh]
    simp only [bind_eq, M.bind, pure_eq, M.pure, fsIsFile, hfs, Option.isSome_some, ite_app,
      Bool.not_true, Bool.true_eq_false, if_false, fsGetSize, Option.getD_some, M.throw]
    rw [if_neg (by simp), if_neg (by omega)]
    simp only [_upload_small_file, bind_eq, M.bind, pure_eq, M.pure, getState, fsReadAll, hfs,
      netCall, NetResult.jsonBody, small_upload_call, small_upload_params]
    rcases hn : env.net 0 with ⟨s1, b1, r1⟩ | m <;> simp [hn, initEff]
  · intro hgt
    simp only [upload_file, bind_eq, M.bind]
    rw [check_token_fresh env st initEff htok hfresh]
    simp only [bind_eq, M.bind, pure_eq, M.pure, fsIsFile, hfs, Option.isSome_some, ite_app,
      Bool.not_true, Bool.true_eq_false, if_false, fsGetSize, Option.getD_some, M.throw]
    rw [if_neg (by simp), if_pos (by omega)]
    obtain ⟨later, hl⟩ :=
      upload_large_trace env st ⟨[], 0, 1, []⟩ local_path remote_path ondup file hfs
    refine ⟨later, ?_⟩
    norm_num [initEff]
    rw [hl]
    simp

/-- C2: during a chunked upload, if the response to chunk `j` has a non-zero
`errno` (all earlier chunk responses being non-aborting), the operation
returns that chunk's payload; the trace holds precreate and the chunk
uploads up to index `j` only — no higher-indexed chunk and no finalize
call is ever issued. -/
theorem chunk_error_aborts_chunked_upload (env : Env) (st : ClientState) (local_path rp od : String) (file : List Byte)
    (j : Nat) (s0 : Int) (b0 : JObj) (r0 : List Byte) (s : Int) (body : JObj) (raw : List Byte)
    (hfs : env.fs local_path = some file)
    (hnet0 : env.net 0 = .resp s0 b0 r0)
    (henz0 : errno_nonzero b0 = false)
    (huid : JVal.truthy (JObj.getD b0 "uploadid" (.jstr "")) = true)
    (hok : ∀ i, i < j → chunk_ok (env.net (1 + i)) = true)
    (hjnet : env.net (1 + j) = .resp s body raw)
    (herr : errno_nonzero body = true)
    (hlen : 4194304 * j < file.length) :
    _upload_large_file local_path rp od env st initEff =
      (.ok body, st,
       ⟨precreate_call st rp file.length od ::
          (List.range (j + 1)).map
            (fun i => chunk_call st rp (JObj.getD b0 "uploadid" (.jstr ""))
              ((file.drop (4194304 * i)).take 4194304) i),
        j + 2, 0, []⟩) := by
  simp only [_upload_large_file, bind_eq, M.bind, pure_eq, M.pure, fsGetSize,
    _calculate_file_md5, fsReadAll, md5Hex, _precreate_file, getState, netCall, initEff, hfs,
    hnet0, NetResult.jsonBody, henz0, huid, ite_app, Bool.false_eq_true, if_false, if_true,
    Bool.not_true, Bool.true_eq_false]
  norm_num
  rw [show (NetCall.post "https://pan.baidu.com/rest/2.0/xpan/file?method=precreate"
      [("access_token", tokenParam st)]
      [("path", JVal.jstr rp), ("size", JVal.jnum file.length), ("isdir", JVal.jnum 0),
       ("autoinit", JVal.jnum 1), ("rtype", JVal.jnum 3), ("block_list", JVal.jstr "[]"),
       ("ondup", JVal.jstr od)]) = precreate_call st rp file.length od from rfl]
  rw [loop_fail rp (JObj.getD b0 "uploadid" (.jstr "")) env st j file 0 []
      ⟨[precreate_call st rp file.length od], 1, 0, []⟩ s body raw hok hjnet herr hlen]
  simp only [M.bind, M.pure]
  refine congrArg (fun z => ((Except.ok body : Except PyErr JObj), st, z)) ?_
  simp only [Eff.mk.injEq, List.singleton_append]
  refine ⟨?_, by omega, trivial, trivial⟩
  refine congrArg (fun l => precreate_call st rp file.length od :: l) ?_
  refine List.map_congr_left ?_
  intro i _hi
  simp

/-- C3: a chunked upload of a file of exactly 4*1024*1024 + 1 bytes uploads
exactly two chunks, of 4,194,304 bytes and 1 byte, at zero-based indices
0 and 1 in file order, and the finalize call's block list holds exactly
the two chunk MD5s in that order. -/
theorem chunked_upload_two_chunks (env : Env) (st : ClientState) (local_path rp od : String) (b : Byte)
    (s0 : Int) (b0 : JObj) (r0 : List Byte) (s3 : Int) (b3 : JObj) (r3 : List Byte)
    (hfs : env.fs local_path = some (List.replicate 4194305 b))
    (hnet0 : env.net 0 = .resp s0 b0 r0)
    (henz0 : errno_nonzero b0 = false)
    (huid : JVal.truthy (JObj.getD b0 "uploadid" (.jstr "")) = true)
    (hok1 : chunk_ok (env.net 1) = true)
    (hok2 : chunk_ok (env.net 2) = true)
    (hnet3 : env.net 3 = .resp s3 b3 r3) :
    _upload_large_file local_path rp od env st initEff =
      (.ok b3, st,
       ⟨[precreate_call st rp 4194305 od,
         chunk_call st rp (JObj.getD b0 "uploadid" (.jstr "")) (List.replicate 4194304 b) 0,
         chunk_call st rp (JObj.getD b0 "uploadid" (.jstr "")) [b] 1,
         create_call st rp 4194305 (JObj.getD b0 "uploadid" (.jstr ""))
           [env.digest (List.replicate 4194304 b), env.digest [b]] od],
        4, 0, []⟩) := by
  simp only [_upload_large_file, bind_eq, M.bind, pure_eq, M.pure, fsGetSize,
    _calculate_file_md5, fsReadAll, md5Hex, _precreate_file, getState, netCall, initEff, hfs,
    hnet0, NetResult.jsonBody, henz0, huid, ite_app, Bool.false_eq_true, if_false, if_true,
    Bool.not_true, Bool.true_eq_false, List.length_replicate]
  norm_num
  rw [show (NetCall.post "https://pan.baidu.com/rest/2.0/xpan/file?method=precreate"
      [("access_token", tokenParam st)]
      [("path", JVal.jstr rp), ("size", JVal.jnum 4194305), ("isdir", JVal.jnum 0),
       ("autoinit", JVal.jnum 1), ("rtype", JVal.jnum 3), ("block_list", JVal.jstr "[]"),
       ("ondup", JVal.jstr od)]) = precreate_call st rp 4194305 od from rfl]
  rw [loop_ok rp (JObj.getD b0 "uploadid" (.jstr "")) env st 2 (List.replicate 4194305 b) 0 []
      ⟨[precreate_call st rp 4194305 od], 1, 0, []⟩
      (by rw [readChunks_big_replicate]; rfl)
      (by intro i hi
          interval_cases i
          · simpa using hok1
          · simpa using hok2)]
  simp only [M.bind, M.pure, readChunks_big_replicate, List.map_cons, List.map_nil,
    List.nil_append]
  simp only [_create_file, bind_eq, M.bind, pure_eq, M.pure, getState, netCall, hnet3,
    NetResult.jsonBody]
  have htr : (List.range 2).map
      (fun i => chunk_call st rp (JObj.getD b0 "uploadid" (.jstr ""))
        (((List.replicate 4194305 b).drop (4194304 * i)).take 4194304) (0 + i)) =
      [chunk_call st rp (JObj.getD b0 "uploadid" (.jstr "")) (List.replicate 4194304 b) 0,
       chunk_call st rp (JObj.getD b0 "uploadid" (.jstr "")) [b] 1] := by
    rw [show (List.range 2) = [0, 1] from rfl]
    simp only [List.map_cons, List.map_nil, Nat.mul_zero, Nat.mul_one, List.drop_zero,
      Nat.zero_add]
    rw [List.take_replicate, List.drop_replicate]
    norm_num
  rw [htr]
  rw [show (NetCall.post "https://pan.baidu.com/rest/2.0/xpan/file?method=create"
      [("access_token", tokenParam st)]
      [("path", JVal.jstr rp), ("size", JVal.jnum (4194305 : Nat)), ("isdir", JVal.jnum 0),
       ("uploadid", JObj.getD b0 "uploadid" (.jstr "")),
       ("block_list", .jstr (json_dumps_strs [env.digest (List.replicate 4194304 b), env.digest [b]])),
       ("ondup", JVal.jstr od)]) =
    create_call st rp 4194305 (JObj.getD b0 "uploadid" (.jstr ""))
      [env.digest (List.replicate 4194304 b), env.digest [b]] od from rfl]
  simp only [List.cons_append, List.nil_append, List.singleton_append]

/-- C4 (amended): when the precreate response carries errno 0 but no non-empty
`uploadid`, the chunked upload stops after the single precreate request —
no chunk upload and no finalize call — and returns the locally synthesized
error payload `{errno: -1, errmsg: ...}` (it does not raise). -/
theorem missing_uploadid_returns_local_error (env : Env) (st : ClientState) (local_path rp od : String) (file : List Byte)
    (s0 : Int) (b0 : JObj) (r0 : List Byte)
    (hfs : env.fs local_path = some file)
    (hnet : env.net 0 = .resp s0 b0 r0)
    (herr : JObj.get? b0 "errno" = some (.jnum 0))
    (huid : JVal.truthy (JObj.getD b0 "uploadid" (.jstr "")) = false) :
    _upload_large_file local_path rp od env st initEff =
      (.ok [("errno", .jnum (-1)), ("errmsg", .jstr "获取上传ID失败")], st,
       ⟨[precreate_call st rp file.length od], 1, 0, []⟩) := by
  have henz : errno_nonzero b0 = false := by
    simp [errno_nonzero, herr, JVal.neZeroPy]
  simp only [_upload_large_file, bind_eq, M.bind, pure_eq, M.pure, fsGetSize,
    _calculate_file_md5, fsReadAll, md5Hex, _precreate_file, getState, netCall, initEff, hfs,
    hnet, NetResult.jsonBody, henz, huid, ite_app, Bool.false_eq_true, if_false,
    precreate_call, precreate_data, tokenParam]
  simp

/-- C7 (counterexample): a transport exception raised by the link-resolution
request inside `download_file` propagates to the caller — the call does
not return a boolean — refuting the claim that every transport exception
during a download is converted to `false`. -/
theorem download_link_exception_propagates :
    download_file "/remote.txt" "/tmp/local.txt" 1048576 cexEnv cexSt initEff =
      (.error (.transportError "connection reset"), cexSt,
       ⟨[dl_call cexSt "/remote.txt"], 1, 1, []⟩) ∧
    (∀ b : Bool, (download_file "/remote.txt" "/tmp/local.txt" 1048576 cexEnv cexSt initEff).1 ≠
      Except.ok b) := by
  constructor
  · rfl
  · intro b hb
    rw [show (download_file "/remote.txt" "/tmp/local.txt" 1048576 cexEnv cexSt initEff).1 =
        Except.error (PyErr.transportError "connection reset") from rfl] at hb
    cases hb

/-- C7 (amended): once the link-resolution request returns a response (rather
than raising), a download always returns a boolean: a non-200 status on
either request and a transport exception during the body download all
yield `false`, and no file-removal operation is ever issued. -/
theorem download_failures_return_false (env : Env) (st : ClientState) (fp lp : String) (cs : Nat)
    (s0 : Int) (b0 : JObj) (r0 : List Byte)
    (htok : truthyOpt st.access_token = true)
    (hfresh : no_refresh_due st (env.clock 0))
    (hnet0 : env.net 0 = .resp s0 b0 r0) :
    ∃ (bv : Bool) (eff : Eff),
      download_file fp lp cs env st initEff = (.ok bv, st, eff) ∧
      (∀ p, FsOp.remove p ∉ eff.fsOps) ∧
      (s0 ≠ 200 → bv = false) ∧
      (jGetStr b0 "dlink" = "" → bv = false) ∧
      (∀ m, env.net 1 = .exn m → bv = false) ∧
      (∀ s1 b1 r1, env.net 1 = .resp s1 b1 r1 → s1 ≠ 200 → bv = false) := by
  simp only [download_file, bind_eq, M.bind]
  rw [get_download_link_resp env st fp s0 b0 r0 htok hfresh hnet0]
  by_cases hdl : (if s0 = 200 then jGetStr b0 "dlink" else "") = ""
  · refine ⟨false, ⟨[dl_call st fp], 1, 1, []⟩, ?_, by simp, fun _ => rfl, fun _ => rfl,
      fun _ _ => rfl, fun _ _ _ _ _ => rfl⟩
    simp [hdl, ite_app, M.pure, pure_eq]
  · have hs0 : s0 = 200 := by
      by_contra hne
      simp [hne] at hdl
    have hds : jGetStr b0 "dlink" ≠ "" := by
      rw [hs0] at hdl
      simpa using hdl
    rw [hs0] at hdl ⊢
    simp only [if_true, ite_true, if_pos rfl] at hdl ⊢
    simp only [hdl, ite_app, Bool.false_eq_true, if_false, M.tryCatch, if_neg hdl]
    rcases hn1 : env.net 1 with ⟨s1, b1, r1⟩ | m
    · by_cases hs1 : s1 = 200
      · obtain ⟨ws, hws, hall⟩ := writeChunks_run lp (readChunks cs r1) env st
          ⟨[dl_call st fp, .get (jGetStr b0 "dlink") []], 2, 1, [.mkdirsParent lp]⟩
        refine ⟨true, ⟨[dl_call st fp, .get (jGetStr b0 "dlink") []], 2, 1,
          FsOp.mkdirsParent lp :: ws⟩, ?_, ?_, fun hh => absurd rfl hh, fun hh => hh.elim, ?_, ?_⟩
        · simp only [bind_eq, M.bind, pure_eq, M.pure, netCall, hn1, NetResult.status,
            NetResult.raw, ite_app, fsMkdirsParent, List.cons_append, List.nil_append,
            List.singleton_append]
          rw [if_neg (by simp [hs1])]
          rw [hws]
          simp
        · intro p hp
          simp only [List.mem_cons] at hp
          rcases hp with h | h
          · cases h
          · obtain ⟨c, hc⟩ := hall _ h
            cases hc
        · intro m hm
          cases hm
        · intro s1x b1x r1x hx hne
          injection hx with h1 _ _
          exact absurd (by rw [← h1, hs1]) hne
      · refine ⟨false, ⟨[dl_call st fp, .get (jGetStr b0 "dlink") []], 2, 1, []⟩, ?_, by simp,
          fun _ => rfl, fun hh => hh.elim, fun _ _ => rfl, fun _ _ _ _ _ => rfl⟩
        simp only [bind_eq, M.bind, pure_eq, M.pure, netCall, hn1, NetResult.status, ite_app,
          List.cons_append, List.nil_append, List.singleton_append]
        rw [if_pos (by simpa using hs1)]
    · refine ⟨false, ⟨[dl_call st fp, .get (jGetStr b0 "dlink") []], 2, 1, []⟩, ?_, by simp,
        fun _ => rfl, fun hh => hh.elim, fun _ _ => rfl, fun _ _ _ _ _ => rfl⟩
      simp only [bind_eq, M.bind, pure_eq, M.pure, netCall, hn1, List.cons_append,
        List.nil_append, List.singleton_append]

/-- C5: with no access token set, every token-gated operation fails with the
local precondition `ValueError` (the token-manager's auth failure) before
any network request is issued. -/
theorem token_gated_ops_fail_before_network (env : Env) (st : ClientState)
    (h : truthyOpt st.access_token = false) :
    get_user_info env st initEff = authFailResult st initEff ∧
    get_quota env st initEff = authFailResult st initEff ∧
    (∀ d o b s l, list_files d o b s l env st initEff = authFailResult st initEff) ∧
    (∀ k d r, search_files k d r env st initEff = authFailResult st initEff) ∧
    (∀ p, get_file_info p env st initEff = authFailResult st initEff) ∧
    (∀ p, create_directory p env st initEff = authFailResult st initEff) ∧
    (∀ ps, delete_files ps env st initEff = authFailResult st initEff) ∧
    (∀ p n, rename_file p n env st initEff = authFailResult st initEff) ∧
    (∀ fl, move_files fl env st initEff = authFailResult st initEff) ∧
    (∀ fl, copy_files fl env st initEff = authFailResult st initEff) ∧
    (∀ p, get_download_link p env st initEff = authFailResult st initEff) ∧
    (∀ lp rp od, upload_file lp rp od env st initEff = authFailResult st initEff) ∧
    (∀ ps per pw d, create_share ps per pw d env st initEff = authFailResult st initEff) ∧
    (∀ s l, list_shares s l env st initEff = authFailResult st initEff) ∧
    (∀ ids, cancel_share ids env st initEff = authFailResult st initEff) := by
  refine ⟨?_, ?_, ?_, ?_, ?_, ?_, ?_, ?_, ?_, ?_, ?_, ?_, ?_, ?_, ?_⟩ <;>
    · intros
      simp only [get_user_info, get_quota, list_files, search_files, get_file_info,
        create_directory, delete_files, rename_file, move_files, copy_files,
        get_download_link, upload_file, create_share, list_shares, cancel_share,
        bind_eq, M.bind, authFailResult]
      rw [check_token_no_token env st initEff h]

/-- C6: a refresh whose response reports `expires_in = E`, performed when the
clock reads `t0`, sets the expiry to `t0 + E`; a token check strictly
before `t0 + E - 60` triggers no network request at all, while a check at
or after that boundary (auto-refresh on) issues exactly one request: the
refresh call. -/
theorem token_refresh_expiry_window (st : ClientState) (E t0 t : Int) (env2 : Env)
    (hrt : truthyOpt st.refresh_token = true)
    (har : st.auto_refresh = true)
    (hpos : 0 < t0 + E)
    (hclock : env2.clock 0 = t) :
    refresh_access_token
        ⟨fun _ => .resp 200 [("access_token", .jstr "tok2"), ("expires_in", .jnum E)] [],
         fun _ => t0, fun _ => none, fun _ => ""⟩ st initEff =
      (.ok [("access_token", .jstr "tok2"), ("expires_in", .jnum E)],
       { st with access_token := some (.jstr "tok2"), token_expire_time := t0 + E },
       ⟨[refresh_call st], 1, 1, []⟩) ∧
    (t < t0 + E - 60 →
      _check_token env2
          { st with access_token := some (.jstr "tok2"), token_expire_time := t0 + E } initEff =
        (.ok (), { st with access_token := some (.jstr "tok2"), token_expire_time := t0 + E },
         ⟨[], 0, 1, []⟩)) ∧
    (t0 + E - 60 ≤ t →
      ((_check_token env2
          { st with access_token := some (.jstr "tok2"), token_expire_time := t0 + E }
          initEff).2.2).trace =
        [refresh_call { st with access_token := some (.jstr "tok2"), token_expire_time := t0 + E }]) := by
  refine ⟨?_, ?_, ?_⟩
  · rw [refresh_resp _ st initEff 200
      [("access_token", .jstr "tok2"), ("expires_in", .jnum E)] [] hrt rfl]
    simp [refresh_state_update, refresh_clocks, JObj.hasKey, JObj.get?, JObj.getD, JVal.asInt,
      initEff]
  · intro hlt
    rw [check_token_fresh env2 _ initEff (by simp [truthyOpt, JVal.truthy]) (by
      intro hc
      simp only [initEff] at hc
      rw [hclock] at hc
      omega)]
    rfl
  · intro hge
    rw [check_token_due env2 _ initEff (by simp [truthyOpt, JVal.truthy]) (by
      refine ⟨by simp only []; omega, ?_, by simpa using har⟩
      simp only [initEff]
      rw [hclock]
      omega)]
    rcases hn : env2.net 0 with ⟨s1, b1, r1⟩ | m
    · rw [show ({ initEff with clocks := initEff.clocks + 1 } : Eff) = ⟨[], 0, 1, []⟩ from rfl]
      simp only [M.bind]
      rw [refresh_resp env2 _ ⟨[], 0, 1, []⟩ s1 b1 r1 (by simpa using hrt) (by simpa using hn)]
      simp [M.pure]
    · rw [show ({ initEff with clocks := initEff.clocks + 1 } : Eff) = ⟨[], 0, 1, []⟩ from rfl]
      simp only [M.bind]
      rw [refresh_exn env2 _ ⟨[], 0, 1, []⟩ m (by simpa using hrt) (by simpa using hn)]
      simp

/-- C8: the whole-file hash of the chunked upload, streamed in fixed
4096-byte reads with one incremental MD5 update per read, equals the MD5 of
the file's entire byte content. -/
theorem md5_streamed_equals_whole_file (env : Env) (st : ClientState) (file_path : String)
    (file : List Byte) (hfs : env.fs file_path = some file) :
    _calculate_file_md5 file_path env st initEff = (.ok (env.digest file), st, initEff) :=
  calculate_file_md5_run env st initEff file_path file hfs

/-- C9: `get_auth_url` returns the authorize URL whose query string holds
`client_id`, `response_type=code`, `redirect_uri` and `scope` as literal,
unencoded parameters in exactly that order; with the default argument the
scope is `basic,netdisk`. -/
theorem get_auth_url_literal_query_params (st : ClientState) (redirect_uri scope : String) :
    get_auth_url st redirect_uri scope =
      "https://openapi.baidu.com/oauth/2.0/authorize?client_id=" ++ st.app_key ++
        "&response_type=code&redirect_uri=" ++ redirect_uri ++ "&scope=" ++ scope ∧
    get_auth_url st redirect_uri default_scope =
      "https://openapi.baidu.com/oauth/2.0/authorize?client_id=" ++ st.app_key ++
        "&response_type=code&redirect_uri=" ++ redirect_uri ++ "&scope=basic,netdisk" := by
  constructor
  · simp only [get_auth_url, String.intercalate, String.intercalate.go, List.map]
    rw [show ("https://openapi.baidu.com/oauth/2.0/authorize?client_id=" : String) =
          "https://openapi.baidu.com/oauth/2.0/authorize?" ++ ("client_id" ++ "=") from rfl,
        show ("&response_type=code&redirect_uri=" : String) =
          "&" ++ "response_type" ++ "=" ++ "code" ++ "&" ++ ("redirect_uri" ++ "=") from rfl,
        show ("&scope=" : String) = "&" ++ ("scope" ++ "=") from rfl]
    simp only [String.append_assoc]
  · simp only [get_auth_url, default_scope, String.intercalate, String.intercalate.go, List.map]
    rw [show ("https://openapi.baidu.com/oauth/2.0/authorize?client_id=" : String) =
          "https://openapi.baidu.com/oauth/2.0/authorize?" ++ ("client_id" ++ "=") from rfl,
        show ("&response_type=code&redirect_uri=" : String) =
          "&" ++ "response_type" ++ "=" ++ "code" ++ "&" ++ ("redirect_uri" ++ "=") from rfl,
        show ("&scope=basic,netdisk" : String) = "&" ++ ("scope" ++ "=" ++ "basic,netdisk") from rfl]
    simp only [String.append_assoc]

/-- C10: if the token-refresh response carries no `access_token` key,
`refresh_access_token` returns that payload and leaves the stored access
token, refresh token and expiry timestamp unchanged, having made exactly
the one refresh request. -/
theorem failed_refresh_leaves_state_unchanged (env : Env) (st : ClientState) (s : Int) (body : JObj) (raw : List Byte)
    (hrt : truthyOpt st.refresh_token = true)
    (hnet : env.net 0 = .resp s body raw)
    (hkey : JObj.hasKey body "access_token" = false) :
    refresh_access_token env st initEff = (.ok body, st, ⟨[refresh_call st], 1, 0, []⟩) := by
  rw [refresh_resp env st initEff s body raw hrt (by simpa using hnet)]
  simp [refresh_state_update, refresh_clocks, hkey, initEff]


/-- C1 witness: a 100-byte file goes through the single upload POST; a
4 MiB + 1 B file enters the chunked path, its first request the precreate. -/
theorem upload_file_size_threshold_witness :
    truthyOpt wSt.access_token = true ∧
    no_refresh_due wSt (w1Env.clock 0) ∧
    w1Env.fs "/small" = some (List.replicate 100 7) ∧
    w1Env.fs "/big" = some (List.replicate 4194305 7) ∧
    (upload_file "/small" "/remote" "overwrite" w1Env wSt initEff).2.2 =
      ⟨[small_upload_call wSt "/remote" "overwrite" (List.replicate 100 7)], 1, 1, []⟩ ∧
    (∃ later, ((upload_file "/big" "/remote" "overwrite" w1Env wSt initEff).2.2).trace =
      precreate_call wSt "/remote" (List.replicate 4194305 (7 : Byte)).length "overwrite" :: later) := by
  have h1 : truthyOpt wSt.access_token = true := by decide
  have h2 : no_refresh_due wSt (w1Env.clock 0) := fun h => absurd h.1 (by decide)
  refine ⟨h1, h2, rfl, rfl, ?_, ?_⟩
  · exact (upload_file_size_threshold w1Env wSt "/small" "/remote" "overwrite"
      (List.replicate 100 7) h1 h2 rfl).1 (by rw [List.length_replicate]; norm_num)
  · exact (upload_file_size_threshold w1Env wSt "/big" "/remote" "overwrite"
      (List.replicate 4194305 7) h1 h2 rfl).2 (by rw [List.length_replicate]; norm_num)

/-- C2 witness: with chunk index 1 answered by errno 2, the upload of a two
chunk file returns that payload after precreate and chunks 0 and 1 only. -/
theorem chunk_error_aborts_chunked_upload_witness :
    c2Env.fs "/big" = some (List.replicate 4194305 0) ∧
    c2Env.net 0 = .resp 200 [("errno", .jnum 0), ("uploadid", .jstr "U")] [] ∧
    (∀ i, i < 1 → chunk_ok (c2Env.net (1 + i)) = true) ∧
    c2Env.net (1 + 1) = .resp 200 [("errno", .jnum 2)] [] ∧
    errno_nonzero [("errno", .jnum 2)] = true ∧
    4194304 * 1 < (List.replicate 4194305 (0 : Byte)).length ∧
    _upload_large_file "/big" "/remote" "overwrite" c2Env wSt initEff =
      (.ok [("errno", .jnum 2)], wSt,
       ⟨precreate_call wSt "/remote" (List.replicate 4194305 (0 : Byte)).length "overwrite" ::
          (List.range 2).map
            (fun i => chunk_call wSt "/remote"
              (JObj.getD [("errno", .jnum 0), ("uploadid", .jstr "U")] "uploadid" (.jstr ""))
              (((List.replicate 4194305 (0 : Byte)).drop (4194304 * i)).take 4194304) i),
        3, 0, []⟩) := by
  have hlen : 4194304 * 1 < (List.replicate 4194305 (0 : Byte)).length := by
    rw [List.length_replicate]
    norm_num
  refine ⟨rfl, rfl, by decide, rfl, by decide, hlen, ?_⟩
  exact chunk_error_aborts_chunked_upload c2Env wSt "/big" "/remote" "overwrite"
    (List.replicate 4194305 0) 1 200 [("errno", .jnum 0), ("uploadid", .jstr "U")] []
    200 [("errno", .jnum 2)] [] rfl rfl (by decide) (by decide) (by decide) rfl (by decide) hlen

/-- C3 witness: the 4 MiB + 1 B upload in a fully successful world makes
exactly the four requests precreate, chunk 0, chunk 1, finalize, the last
carrying the two chunk hashes in order. -/
theorem chunked_upload_two_chunks_witness :
    c3Env.fs "/big" = some (List.replicate 4194305 9) ∧
    chunk_ok (c3Env.net 1) = true ∧
    chunk_ok (c3Env.net 2) = true ∧
    c3Env.net 3 = .resp 200 [("errno", .jnum 0), ("fs_id", .jnum 77)] [] ∧
    _upload_large_file "/big" "/remote" "overwrite" c3Env wSt initEff =
      (.ok [("errno", .jnum 0), ("fs_id", .jnum 77)], wSt,
       ⟨[precreate_call wSt "/remote" 4194305 "overwrite",
         chunk_call wSt "/remote"
           (JObj.getD [("errno", .jnum 0), ("uploadid", .jstr "U")] "uploadid" (.jstr ""))
           (List.replicate 4194304 9) 0,
         chunk_call wSt "/remote"
           (JObj.getD [("errno", .jnum 0), ("uploadid", .jstr "U")] "uploadid" (.jstr ""))
           [9] 1,
         create_call wSt "/remote" 4194305
           (JObj.getD [("errno", .jnum 0), ("uploadid", .jstr "U")] "uploadid" (.jstr ""))
           [c3Env.digest (List.replicate 4194304 9), c3Env.digest [9]] "overwrite"],
        4, 0, []⟩) := by
  refine ⟨rfl, by decide, by decide, rfl, ?_⟩
  exact chunked_upload_two_chunks c3Env wSt "/big" "/remote" "overwrite" 9 200
    [("errno", .jnum 0), ("uploadid", .jstr "U")] [] 200
    [("errno", .jnum 0), ("fs_id", .jnum 77)] []
    rfl rfl (by decide) (by decide) (by decide) (by decide) rfl

/-- C4 witness: a precreate answer `{errno: 0}` with no `uploadid` makes the
chunked upload return the local errno -1 payload after one request. -/
theorem missing_uploadid_returns_local_error_witness :
    c4Env.fs "/big" = some (List.replicate 4194305 0) ∧
    JObj.get? [("errno", .jnum 0)] "errno" = some (.jnum 0) ∧
    JVal.truthy (JObj.getD [("errno", .jnum 0)] "uploadid" (.jstr "")) = false ∧
    _upload_large_file "/big" "/remote" "overwrite" c4Env wSt initEff =
      (.ok [("errno", .jnum (-1)), ("errmsg", .jstr "获取上传ID失败")], wSt,
       ⟨[precreate_call wSt "/remote" (List.replicate 4194305 (0 : Byte)).length "overwrite"],
        1, 0, []⟩) := by
  refine ⟨rfl, by decide, by decide, ?_⟩
  exact missing_uploadid_returns_local_error c4Env wSt "/big" "/remote" "overwrite"
    (List.replicate 4194305 0) 200 [("errno", .jnum 0)] [] rfl rfl (by decide) (by decide)

/-- C5 witness: a token-less client fails `get_user_info` and `upload_file`
locally with the auth `ValueError`, no request issued. -/
theorem token_gated_ops_fail_before_network_witness :
    truthyOpt wStNoTok.access_token = false ∧
    get_user_info idleEnv wStNoTok initEff = authFailResult wStNoTok initEff ∧
    upload_file "/a" "/b" "overwrite" idleEnv wStNoTok initEff = authFailResult wStNoTok initEff := by
  have h : truthyOpt wStNoTok.access_token = false := by decide
  obtain ⟨h1, _h2, _h3, _h4, _h5, _h6, _h7, _h8, _h9, _h10, _h11, h12, _h13, _h14, _h15⟩ :=
    token_gated_ops_fail_before_network idleEnv wStNoTok h
  exact ⟨h, h1, h12 "/a" "/b" "overwrite"⟩

/-- C6 witness: after a refresh at time 1000 with `expires_in` 3600, a check
at time 100 makes no request, and a check at time 5000 makes exactly the one
refresh request. -/
theorem token_refresh_expiry_window_witness :
    truthyOpt wSt.refresh_token = true ∧
    wSt.auto_refresh = true ∧
    ((0 : Int) < 1000 + 3600) ∧
    _check_token (w6Env 100)
        ⟨"app", "secret", some (.jstr "tok2"), some (.jstr "refresh"), true, 4600⟩ initEff =
      (.ok (), ⟨"app", "secret", some (.jstr "tok2"), some (.jstr "refresh"), true, 4600⟩,
       ⟨[], 0, 1, []⟩) ∧
    ((_check_token (w6Env 5000)
        ⟨"app", "secret", some (.jstr "tok2"), some (.jstr "refresh"), true, 4600⟩
        initEff).2.2).trace =
      [refresh_call ⟨"app", "secret", some (.jstr "tok2"), some (.jstr "refresh"), true, 4600⟩] := by
  have hrt : truthyOpt wSt.refresh_token = true := by decide
  have h1 := token_refresh_expiry_window wSt 3600 1000 100 (w6Env 100) hrt (by decide)
    (by decide) rfl
  have h2 := token_refresh_expiry_window wSt 3600 1000 5000 (w6Env 5000) hrt (by decide)
    (by decide) rfl
  exact ⟨hrt, by decide, by decide, h1.2.1 (by norm_num), h2.2.2 (by norm_num)⟩

/-- C7 witness: in a world where the link resolves and the body downloads,
the amended download contract holds. -/
theorem download_failures_return_false_witness :
    truthyOpt wSt.access_token = true ∧
    no_refresh_due wSt (w7Env.clock 0) ∧
    w7Env.net 0 = .resp 200 [("dlink", .jstr "https://d.example/x")] [] ∧
    (∃ (bv : Bool) (eff : Eff),
      download_file "/r.txt" "/l.txt" 1048576 w7Env wSt initEff = (.ok bv, wSt, eff) ∧
      (∀ p, FsOp.remove p ∉ eff.fsOps) ∧
      ((200 : Int) ≠ 200 → bv = false) ∧
      (jGetStr [("dlink", .jstr "https://d.example/x")] "dlink" = "" → bv = false) ∧
      (∀ m, w7Env.net 1 = .exn m → bv = false) ∧
      (∀ s1 b1 r1, w7Env.net 1 = .resp s1 b1 r1 → s1 ≠ 200 → bv = false)) := by
  have h1 : truthyOpt wSt.access_token = true := by decide
  have h2 : no_refresh_due wSt (w7Env.clock 0) := fun h => absurd h.1 (by decide)
  exact ⟨h1, h2, rfl, download_failures_return_false w7Env wSt "/r.txt" "/l.txt" 1048576 200
    [("dlink", .jstr "https://d.example/x")] [] h1 h2 rfl⟩

/-- C8 witness: streaming the two-byte file `/doc.txt` yields the digest of
its whole content. -/
theorem md5_streamed_equals_whole_file_witness :
    w8Env.fs "/doc.txt" = some [104, 105] ∧
    _calculate_file_md5 "/doc.txt" w8Env wSt initEff =
      (.ok (w8Env.digest [104, 105]), wSt, initEff) :=
  ⟨rfl, md5_streamed_equals_whole_file w8Env wSt "/doc.txt" [104, 105] rfl⟩

/-- C10 witness: a refresh answered by `{error: expired_token}` returns that
payload and leaves the client state untouched after one request. -/
theorem failed_refresh_leaves_state_unchanged_witness :
    truthyOpt wSt.refresh_token = true ∧
    w10Env.net 0 = .resp 200 [("error", .jstr "expired_token")] [] ∧
    JObj.hasKey [("error", .jstr "expired_token")] "access_token" = false ∧
    refresh_access_token w10Env wSt initEff =
      (.ok [("error", .jstr "expired_token")], wSt, ⟨[refresh_call wSt], 1, 0, []⟩) := by
  refine ⟨by decide, rfl, by decide, ?_⟩
  exact failed_refresh_leaves_state_unchanged w10Env wSt 200
    [("error", .jstr "expired_token")] [] (by decide) rfl (by decide)


/-- C4 (counterexample): with a precreate answer of errno 0 and no
`uploadid`, `_upload_large_file` completes normally, returning the
synthesized `{errno: -1}` payload — no error of any kind is raised, so the
operation does not "fail with a ProtocolError". -/
theorem missing_uploadid_no_exception :
    (_upload_large_file "/big" "/remote" "overwrite" c4Env wSt initEff).1 =
      .ok [("errno", .jnum (-1)), ("errmsg", .jstr "获取上传ID失败")] ∧
    (∀ e : PyErr, (_upload_large_file "/big" "/remote" "overwrite" c4Env wSt initEff).1 ≠
      Except.error e) := by
  constructor
  · rfl
  · intro e he
    rw [show (_upload_large_file "/big" "/remote" "overwrite" c4Env wSt initEff).1 =
        Except.ok [("errno", JVal.jnum (-1)), ("errmsg", JVal.jstr "获取上传ID失败")] from rfl] at he
    cases he

end BaiduCloud
